import Mathlib

/-!
Verification of the payment event pipeline of this repository.

The embedding below follows the two Deno edge functions
(`supabase/functions/stripe-webhook/index.ts` and
`supabase/functions/create-payment-stripe/index.ts`) and the SQL schema
(the `transactions`, `fees`, `wallets`, `webhooks` and `webhook_deliveries`
tables).  Database rows are Lean structures, the store is lists of rows,
and each HTTP handler is a pure function from its inputs and the current
store to the next store plus an HTTP status code.  Cryptographic signature
verification and JSON parsing are abstracted as `Option` inputs: `none`
models the library call throwing, `some ev` models it returning `ev`.
Monetary values are rationals, modelling the ideal semantics of the JS
numbers the code uses.  Timestamps are naturals.
-/

namespace Gateway

/-- Row of the `transactions` table, restricted to the columns the two
handlers read or write.  `gateway_response` keeps only the id of the
provider object stored there. -/
structure Transaction where
  gateway_transaction_id : String
  status : String
  amount : ℚ
  fee_amount : ℚ
  net_amount : Option ℚ
  refunded_amount : ℚ
  gateway_response : Option String
  settled_at : Option Nat
  refunded_at : Option Nat
  completed_at : Option Nat
  deriving DecidableEq, Repr

/-- Row of the `fees` table (columns relevant to the pipeline). -/
structure Fee where
  transaction_id : String
  amount : ℚ
  deriving DecidableEq, Repr

/-- Row of the `wallets` table. -/
structure Wallet where
  user_id : String
  balance : ℚ
  pending_balance : ℚ
  blocked_balance : ℚ
  deriving DecidableEq, Repr

/-- Row of the `activity_logs` table as inserted by the webhook handler
(`action`, `resource_type` fixed; `details` keeps event type and id). -/
structure ActivityLog where
  action : String
  event_type : String
  event_id : String
  deriving DecidableEq, Repr

/-- The persistent store visible to the webhook handler. -/
structure Store where
  transactions : List Transaction
  fees : List Fee
  wallets : List Wallet
  activity_logs : List ActivityLog
  deriving DecidableEq, Repr

/-- A decoded Stripe event: its id, its `type` string, and the payment
intent id the handler matches against `gateway_transaction_id`
(`paymentIntent.id`, `charge.payment_intent` or `dispute.payment_intent`
depending on the branch). -/
structure StripeEvent where
  id : String
  type : String
  objectId : String
  deriving DecidableEq, Repr

/-- Row of `psp_configurations` for `psp_name = stripe`, restricted to the
columns the webhook handler selects. -/
structure StripeConfig where
  api_key_secret : Option String
  webhook_secret : Option String
  deriving DecidableEq, Repr

/-- The `.update(...).eq(gateway_transaction_id, gid)` pattern used by every
branch of the webhook switch: apply `f` to each matching row. -/
def updateByGatewayId (ts : List Transaction) (gid : String)
    (f : Transaction → Transaction) : List Transaction :=
  ts.map fun t => if t.gateway_transaction_id = gid then f t else t

/-- The `switch (event.type)` of `stripe-webhook/index.ts` lines 66-166:
each recognised event type unconditionally updates every transaction whose
`gateway_transaction_id` equals the payment intent id of the event;
unrecognised types fall to the default branch and change nothing. -/
def applyEvent (now : Nat) (ev : StripeEvent) (st : Store) : Store :=
  if ev.type = "payment_intent.succeeded" then
    { st with transactions := updateByGatewayId st.transactions ev.objectId fun t =>
        { t with status := "paid", gateway_response := some ev.objectId,
                 settled_at := some now } }
  else if ev.type = "payment_intent.payment_failed" then
    { st with transactions := updateByGatewayId st.transactions ev.objectId fun t =>
        { t with status := "failed", gateway_response := some ev.objectId } }
  else if ev.type = "payment_intent.canceled" then
    { st with transactions := updateByGatewayId st.transactions ev.objectId fun t =>
        { t with status := "cancelled", gateway_response := some ev.objectId } }
  else if ev.type = "charge.refunded" then
    { st with transactions := updateByGatewayId st.transactions ev.objectId fun t =>
        { t with status := "refunded", gateway_response := some ev.objectId,
                 refunded_at := some now } }
  else if ev.type = "charge.dispute.created" then
    { st with transactions := updateByGatewayId st.transactions ev.objectId fun t =>
        { t with status := "chargeback", gateway_response := some ev.objectId } }
  else st

/-- The unconditional `activity_logs` insert at lines 168-178 of the
webhook handler, executed after the switch for every decoded event. -/
def logEvent (ev : StripeEvent) (st : Store) : Store :=
  { st with activity_logs := st.activity_logs ++ [⟨"stripe_webhook", ev.type, ev.id⟩] }

/-- Processing of one decoded event: the switch followed by the log insert. -/
def processEvent (now : Nat) (ev : StripeEvent) (st : Store) : Store :=
  logEvent ev (applyEvent now ev st)

/-- The whole webhook handler (`stripe-webhook/index.ts` lines 19-204).
`config` is the `psp_configurations` row (`none` when the select finds no
row), `signature` the `stripe-signature` header, `verified` the result of
`stripe.webhooks.constructEvent` (`none` models the throw on an invalid
signature), `parsed` the result of `JSON.parse(body)` (`none` models a
parse throw).  Returns the new store and the HTTP status code.  Note the
guard at line 45: the signature is verified only when BOTH a webhook
secret is configured AND the header is present; otherwise the handler
falls through to `JSON.parse` on the raw body. -/
def handleWebhook (config : Option StripeConfig) (signature : Option String)
    (verified : Option StripeEvent) (parsed : Option StripeEvent)
    (now : Nat) (st : Store) : Store × Nat :=
  match config with
  | none => (st, 500)
  | some cfg =>
    match cfg.api_key_secret with
    | none => (st, 500)
    | some _ =>
      match cfg.webhook_secret, signature with
      | some _, some _ =>
        match verified with
        | none => (st, 400)
        | some ev => (processEvent now ev st, 200)
      | _, _ =>
        match parsed with
        | none => (st, 500)
        | some ev => (processEvent now ev st, 200)

/-- JavaScript `Math.round` on the ideal (rational) value: round half
toward positive infinity. -/
def jsRound (x : ℚ) : ℤ := ⌊x + 1 / 2⌋

/-- The `transactionStatus` mapping of `create-payment-stripe/index.ts`
lines 112-124: starts at `pending` and branches on the provider status. -/
def mapIntentStatus (s : String) : String :=
  if s = "succeeded" then "paid"
  else if s = "processing" then "processing"
  else if s = "requires_payment_method" ∨ s = "requires_confirmation" then "pending"
  else if s = "canceled" then "cancelled"
  else if s = "payment_failed" then "failed"
  else "pending"

/-- The monetary outcome of the create-payment handler: the amount sent to
the provider (line 95, `Math.round(paymentRequest.amount * 100)`), the
amount inserted into `transactions` (line 131, the raw request amount),
and the status inserted (line 136). -/
structure CreatePaymentOutcome where
  stripe_amount : ℤ
  persisted_amount : ℚ
  persisted_status : String
  deriving DecidableEq, Repr

/-- Amount and status flow of `create-payment-stripe/index.ts` lines
93-143, for a request amount and the status the provider returns on the
created intent. -/
def createPayment (amount : ℚ) (intentStatus : String) : CreatePaymentOutcome :=
  { stripe_amount := jsRound (amount * 100)
    persisted_amount := amount
    persisted_status := mapIntentStatus intentStatus }

/-- The CHECK constraint on `transactions.status`
(schema line 177): the set of status values the storage layer accepts. -/
def transactionsStatusCheck (s : String) : Bool :=
  s == "pending" || s == "processing" || s == "completed" || s == "failed"
    || s == "refunded" || s == "cancelled"

/-- Concrete-instance helper: a transaction row with the given gateway id,
status and amount, every other column at its default. -/
def mkTx (gid status : String) (amount : ℚ) : Transaction :=
  ⟨gid, status, amount, 0, none, 0, none, none, none, none⟩

/-- Concrete-instance helper: a store holding the given transactions and
nothing else. -/
def mkStore (ts : List Transaction) : Store :=
  ⟨ts, [], [], []⟩

/-- One recorded delivery attempt of the Outbound Webhook Dispatcher
(attempt number and HTTP response status), matching the bookkeeping of
the `webhook_deliveries` table (`attempts`, `response_status`). -/
structure DeliveryAttempt where
  attempt : Nat
  response_status : Nat
  deriving DecidableEq, Repr

/-- The delivery bookkeeping for one (endpoint, event) pair: the recorded
attempts in order and the `delivered` flag of `webhook_deliveries`. -/
structure DeliveryOutcome where
  attempts : List DeliveryAttempt
  delivered : Bool
  deriving DecidableEq, Repr

/-- Modelled from the spec: the Outbound Webhook Dispatcher is absent from
src/ — only the `webhook_deliveries` and `webhooks` tables declare its
bookkeeping — so its retry loop is modelled from sections 4.4 and 5 of the
spec: starting at attempt `n` with the given remaining attempt budget, if
the endpoint is active issue the attempt; a 2xx response records the
attempt and marks delivered; otherwise record the attempt and retry (the
next attempt in backoff order); once the endpoint is deactivated no
further attempt is issued. -/
def dispatchFrom (active : Nat → Bool) (respond : Nat → Nat) : Nat → Nat → DeliveryOutcome
  | _, 0 => ⟨[], false⟩
  | n, fuel + 1 =>
    if active n then
      if 200 ≤ respond n ∧ respond n < 300 then ⟨[⟨n, respond n⟩], true⟩
      else
        let rest := dispatchFrom active respond (n + 1) fuel
        ⟨⟨n, respond n⟩ :: rest.attempts, rest.delivered⟩
    else ⟨[], false⟩

/-- Modelled from the spec: full delivery of one event to one endpoint,
attempts numbered from 1 up to the configured maximum attempt count. -/
def dispatch (maxAttempts : Nat) (active : Nat → Bool) (respond : Nat → Nat) :
    DeliveryOutcome :=
  dispatchFrom active respond 1 maxAttempts

/-- The endpoint behaviour of the C10 scenario: HTTP 500 on the first
three attempts, HTTP 200 from the fourth on. -/
def scenarioRespond (n : Nat) : Nat :=
  if n ≤ 3 then 500 else 200

/-- The webhook switch never touches the `fees` table. -/
theorem applyEvent_fees (now : Nat) (ev : StripeEvent) (st : Store) :
    (applyEvent now ev st).fees = st.fees := by
  unfold applyEvent
  split_ifs <;> rfl

/-- The webhook switch never touches the `wallets` table. -/
theorem applyEvent_wallets (now : Nat) (ev : StripeEvent) (st : Store) :
    (applyEvent now ev st).wallets = st.wallets := by
  unfold applyEvent
  split_ifs <;> rfl

/-- The webhook switch never touches the `activity_logs` table (only the
separate insert after the switch does). -/
theorem applyEvent_logs (now : Nat) (ev : StripeEvent) (st : Store) :
    (applyEvent now ev st).activity_logs = st.activity_logs := by
  unfold applyEvent
  split_ifs <;> rfl

/-- Each processed event appends exactly one activity log record. -/
theorem processEvent_logs (now : Nat) (ev : StripeEvent) (st : Store) :
    (processEvent now ev st).activity_logs
      = st.activity_logs ++ [⟨"stripe_webhook", ev.type, ev.id⟩] := by
  simp [processEvent, logEvent, applyEvent_logs]

/-- A projection untouched by the per-row update is untouched by the whole
`update ... eq` call. -/
theorem updateByGatewayId_map_eq {α : Type} (ts : List Transaction) (gid : String)
    (f : Transaction → Transaction) (g : Transaction → α)
    (h : ∀ t, g (f t) = g t) :
    (updateByGatewayId ts gid f).map g = ts.map g := by
  unfold updateByGatewayId
  rw [List.map_map]
  refine List.map_congr_left ?_
  intro t _
  by_cases hc : t.gateway_transaction_id = gid <;> simp [hc, h]

/-- An `update ... eq` call whose per-row update is idempotent and keeps
the gateway id is idempotent on the table. -/
theorem updateByGatewayId_idem (ts : List Transaction) (gid : String)
    (f : Transaction → Transaction)
    (hid : ∀ t, (f t).gateway_transaction_id = t.gateway_transaction_id)
    (hff : ∀ t, f (f t) = f t) :
    updateByGatewayId (updateByGatewayId ts gid f) gid f = updateByGatewayId ts gid f := by
  unfold updateByGatewayId
  rw [List.map_map]
  refine List.map_congr_left ?_
  intro t _
  by_cases hc : t.gateway_transaction_id = gid <;>
    simp [Function.comp, hc, hid, hff]

/-- The transactions produced by the switch depend only on the transactions
of the input store. -/
theorem applyEvent_transactions_congr (now : Nat) (ev : StripeEvent) (st1 st2 : Store)
    (h : st1.transactions = st2.transactions) :
    (applyEvent now ev st1).transactions = (applyEvent now ev st2).transactions := by
  unfold applyEvent
  split_ifs <;> simp [h]

/-- Applying the same event twice with the same timestamp leaves the same
transactions as applying it once: every branch writes constants. -/
theorem applyEvent_transactions_idem (now : Nat) (ev : StripeEvent) (st : Store) :
    (applyEvent now ev (applyEvent now ev st)).transactions
      = (applyEvent now ev st).transactions := by
  unfold applyEvent
  split_ifs <;>
    first
      | rfl
      | exact updateByGatewayId_idem _ _ _ (fun t => rfl) (fun t => rfl)

/-- An `update ... eq` call that matches no row is the identity. -/
theorem updateByGatewayId_no_match (ts : List Transaction) (gid : String)
    (f : Transaction → Transaction)
    (h : ∀ t ∈ ts, t.gateway_transaction_id ≠ gid) :
    updateByGatewayId ts gid f = ts := by
  unfold updateByGatewayId
  have h2 : ts.map (fun t => if t.gateway_transaction_id = gid then f t else t) = ts.map id :=
    List.map_congr_left (fun t ht => by simp [h t ht])
  simpa using h2

/-- The rational 21/2 (the major-unit amount 10.50) is not an integer. -/
theorem half21_not_int : ¬ ∃ n : ℤ, (21 / 2 : ℚ) = (n : ℚ) := by
  rintro ⟨n, hn⟩
  have h2 : (21 : ℚ) = 2 * (n : ℚ) := by linear_combination 2 * hn
  have h3 : (21 : ℤ) = 2 * n := by exact_mod_cast h2
  omega

/-- C1, counterexample: with an API key but NO webhook signing secret
configured, an unsigned `payment_intent.succeeded` event is still parsed
and applied — the pending transaction becomes `paid`, refuting the claim
that no transaction status update occurs when the secret is absent. -/
theorem c1_counterexample :
    ((handleWebhook (some ⟨some "sk_live", none⟩) none none
        (some ⟨"evt_1", "payment_intent.succeeded", "pi_1"⟩) 0
        (mkStore [mkTx "pi_1" "pending" 10000])).1.transactions.map Transaction.status
      = ["paid"])
    ∧ ((mkStore [mkTx "pi_1" "pending" 10000]).transactions.map Transaction.status
      = ["pending"]) :=
  ⟨rfl, rfl⟩

/-- C1 (amended): when no webhook signing secret is configured (even with
the API key present), the handler fails OPEN, not closed: for every
request whose body parses, it processes the unsigned event against the
store and answers 200 — there is no `ProviderNotConfigured` rejection. -/
theorem c1_fail_open (api : String) (sig : Option String)
    (vf : Option StripeEvent) (ev : StripeEvent) (now : Nat) (st : Store) :
    handleWebhook (some ⟨some api, none⟩) sig vf (some ev) now st
      = (processEvent now ev st, 200) := by
  cases sig <;> rfl

/-- C2, counterexample: a transaction whose status is `paid` receives a
`payment_intent.payment_failed` event and its status is overwritten to
`failed`, refuting the claim that the status remains `paid`. -/
theorem c2_counterexample :
    (applyEvent 0 ⟨"evt_2", "payment_intent.payment_failed", "pi_2"⟩
        (mkStore [mkTx "pi_2" "paid" 5000])).transactions.map Transaction.status
      = ["failed"]
    ∧ (mkStore [mkTx "pi_2" "paid" 5000]).transactions.map Transaction.status
      = ["paid"] :=
  ⟨rfl, rfl⟩

/-- C2 (amended): the handler checks no transition edge at all: a
`payment_intent.payment_failed` event overwrites the status of every
matching transaction to `failed` unconditionally, whatever the current
status (in particular `paid` becomes `failed`); non-matching rows are
untouched. -/
theorem c2_unconditional_overwrite (now : Nat) (evid gid : String) (st : Store) :
    (applyEvent now ⟨evid, "payment_intent.payment_failed", gid⟩ st).transactions
      = st.transactions.map fun t =>
          if t.gateway_transaction_id = gid
          then { t with status := "failed", gateway_response := some gid }
          else t :=
  rfl

/-- C5: the webhook handler writes status values the schema rejects: a
`payment_intent.succeeded` event writes `paid` and a
`charge.dispute.created` event writes `chargeback`, while the CHECK
constraint on `transactions.status` accepts neither; the create-payment
handler likewise maps provider status `succeeded` to `paid`. -/
theorem c5_status_check_violation :
    ((applyEvent 0 ⟨"evt_5", "payment_intent.succeeded", "pi_5"⟩
        (mkStore [mkTx "pi_5" "pending" 100])).transactions.map Transaction.status
        = ["paid"]
      ∧ transactionsStatusCheck "paid" = false)
    ∧ ((applyEvent 0 ⟨"evt_6", "charge.dispute.created", "pi_5"⟩
        (mkStore [mkTx "pi_5" "paid" 100])).transactions.map Transaction.status
        = ["chargeback"]
      ∧ transactionsStatusCheck "chargeback" = false)
    ∧ (createPayment 100 "succeeded").persisted_status = "paid" :=
  ⟨⟨rfl, rfl⟩, ⟨rfl, rfl⟩, rfl⟩

/-- C9: the provider-status mapping of the create-payment handler, exactly
as the claim lists it, with default `pending` for every other string. -/
theorem c9_status_mapping :
    mapIntentStatus "succeeded" = "paid"
    ∧ mapIntentStatus "processing" = "processing"
    ∧ mapIntentStatus "requires_payment_method" = "pending"
    ∧ mapIntentStatus "requires_confirmation" = "pending"
    ∧ mapIntentStatus "canceled" = "cancelled"
    ∧ mapIntentStatus "payment_failed" = "failed"
    ∧ ∀ s : String,
        s ≠ "succeeded" → s ≠ "processing" → s ≠ "requires_payment_method" →
        s ≠ "requires_confirmation" → s ≠ "canceled" → s ≠ "payment_failed" →
        mapIntentStatus s = "pending" := by
  refine ⟨rfl, rfl, rfl, rfl, rfl, rfl, ?_⟩
  intro s h1 h2 h3 h4 h5 h6
  simp [mapIntentStatus, h1, h2, h3, h4, h5, h6]

/-- C9, witness: an unlisted provider status (`requires_capture`) maps to
`pending` by the default branch. -/
theorem c9_status_mapping_witness : mapIntentStatus "requires_capture" = "pending" :=
  c9_status_mapping.2.2.2.2.2.2 "requires_capture" (by decide) (by decide)
    (by decide) (by decide) (by decide) (by decide)

/-- C3, counterexample: processing the same provider event twice (at
timestamps 0 and then 1) does NOT yield the same final store as processing
it once — a second activity log record is appended and `settled_at` is
overwritten — refuting the claimed dedup short-circuit. -/
theorem c3_counterexample :
    processEvent 1 ⟨"evt_3", "payment_intent.succeeded", "pi_3"⟩
        (processEvent 0 ⟨"evt_3", "payment_intent.succeeded", "pi_3"⟩
          (mkStore [mkTx "pi_3" "pending" 100]))
      ≠ processEvent 0 ⟨"evt_3", "payment_intent.succeeded", "pi_3"⟩
          (mkStore [mkTx "pi_3" "pending" 100]) := by
  intro h
  have h2 := congrArg (fun s => s.activity_logs.length) h
  simp only [processEvent_logs] at h2
  simp [mkStore] at h2

/-- C3 (amended): the handler performs no dedup lookup and never
short-circuits: reprocessing the same event re-runs the update (the
transaction rows end identical only because the branch writes constants,
shown here with an equal timestamp) and appends a second, identical
activity log record, so the final store differs from single processing
and no dedup record of any kind exists. -/
theorem c3_no_dedup_reapplies (now : Nat) (ev : StripeEvent) (st : Store) :
    (processEvent now ev (processEvent now ev st)).transactions
      = (processEvent now ev st).transactions
    ∧ (processEvent now ev (processEvent now ev st)).activity_logs
      = st.activity_logs
          ++ [⟨"stripe_webhook", ev.type, ev.id⟩, ⟨"stripe_webhook", ev.type, ev.id⟩] := by
  constructor
  · show (applyEvent now ev (logEvent ev (applyEvent now ev st))).transactions
      = (applyEvent now ev st).transactions
    calc (applyEvent now ev (logEvent ev (applyEvent now ev st))).transactions
        = (applyEvent now ev (applyEvent now ev st)).transactions :=
          applyEvent_transactions_congr now ev _ _ rfl
      _ = (applyEvent now ev st).transactions := applyEvent_transactions_idem now ev st
  · show (logEvent ev (applyEvent now ev (logEvent ev (applyEvent now ev st)))).activity_logs = _
    simp [logEvent, applyEvent_logs]

/-- C4, counterexample: a `payment_intent.succeeded` event on a pending
transaction of amount 10000 marks it `paid` but writes no Fee record
(claimed: one record of 250), credits no wallet (claimed: net 9750), keeps
`fee_amount` 0 and `net_amount` null, and stamps no `completed_at`. -/
theorem c4_counterexample :
    ((processEvent 0 ⟨"evt_4", "payment_intent.succeeded", "pi_4"⟩
        (mkStore [mkTx "pi_4" "pending" 10000])).transactions.map Transaction.status
      = ["paid"])
    ∧ (processEvent 0 ⟨"evt_4", "payment_intent.succeeded", "pi_4"⟩
        (mkStore [mkTx "pi_4" "pending" 10000])).fees = []
    ∧ (processEvent 0 ⟨"evt_4", "payment_intent.succeeded", "pi_4"⟩
        (mkStore [mkTx "pi_4" "pending" 10000])).wallets = []
    ∧ ((processEvent 0 ⟨"evt_4", "payment_intent.succeeded", "pi_4"⟩
        (mkStore [mkTx "pi_4" "pending" 10000])).transactions.map Transaction.fee_amount
      = [0])
    ∧ ((processEvent 0 ⟨"evt_4", "payment_intent.succeeded", "pi_4"⟩
        (mkStore [mkTx "pi_4" "pending" 10000])).transactions.map Transaction.net_amount
      = [none])
    ∧ ((processEvent 0 ⟨"evt_4", "payment_intent.succeeded", "pi_4"⟩
        (mkStore [mkTx "pi_4" "pending" 10000])).transactions.map Transaction.completed_at
      = [none]) :=
  ⟨rfl, rfl, rfl, rfl, rfl, rfl⟩

/-- C4 (amended): the webhook handler produces NO fee or wallet side
effects on any event: the `fees` and `wallets` tables and the `amount`,
`fee_amount`, `net_amount` and `completed_at` columns of every transaction
are unchanged by event processing — entering `paid` only rewrites
`status`, `gateway_response` and `settled_at`. -/
theorem c4_no_fee_side_effects (now : Nat) (ev : StripeEvent) (st : Store) :
    (processEvent now ev st).fees = st.fees
    ∧ (processEvent now ev st).wallets = st.wallets
    ∧ ((processEvent now ev st).transactions.map fun t =>
        (t.amount, t.fee_amount, t.net_amount, t.completed_at))
      = st.transactions.map fun t => (t.amount, t.fee_amount, t.net_amount, t.completed_at) := by
  refine ⟨?_, ?_, ?_⟩
  · show (applyEvent now ev st).fees = st.fees
    exact applyEvent_fees now ev st
  · show (applyEvent now ev st).wallets = st.wallets
    exact applyEvent_wallets now ev st
  · show ((applyEvent now ev st).transactions.map _) = _
    unfold applyEvent
    split_ifs <;>
      first
        | rfl
        | exact updateByGatewayId_map_eq _ _ _ _ (fun t => rfl)

/-- C6, counterexample: for the request amount 10.50 (the rational 21/2),
the create-payment handler sends 1050 minor units to the provider but
persists the raw major-unit value 21/2 in the transaction record — a
non-integer — refuting the claim that every persisted amount is an
integer number of minor units. -/
theorem c6_counterexample :
    (createPayment (21 / 2) "succeeded").persisted_amount = 21 / 2
    ∧ (¬ ∃ n : ℤ, (createPayment (21 / 2) "succeeded").persisted_amount = (n : ℚ))
    ∧ (createPayment (21 / 2) "succeeded").stripe_amount = 1050 := by
  refine ⟨rfl, half21_not_int, ?_⟩
  show jsRound ((21 / 2 : ℚ) * 100) = 1050
  unfold jsRound
  rw [show (21 / 2 : ℚ) * 100 + 1 / 2 = 2101 / 2 by norm_num]
  rw [Int.floor_eq_iff]
  constructor <;> norm_num

/-- C6 (amended): only the amount sent to the provider is converted to
integer minor units, via round(amount * 100); the transaction record
persists the raw request amount in major units unchanged, so a
non-integer request amount is persisted as a non-integer value. -/
theorem c6_major_units_persisted (amount : ℚ) (s : String)
    (h : ¬ ∃ n : ℤ, amount = (n : ℚ)) :
    (createPayment amount s).persisted_amount = amount
    ∧ (¬ ∃ n : ℤ, (createPayment amount s).persisted_amount = (n : ℚ))
    ∧ (createPayment amount s).stripe_amount = jsRound (amount * 100) :=
  ⟨rfl, h, rfl⟩

/-- C6, witness: the amended statement at the concrete request amount
21/2 with provider status `succeeded`. -/
theorem c6_major_units_witness :
    (¬ ∃ n : ℤ, (21 / 2 : ℚ) = (n : ℚ))
    ∧ ((createPayment (21 / 2) "succeeded").persisted_amount = 21 / 2
      ∧ (¬ ∃ n : ℤ, (createPayment (21 / 2) "succeeded").persisted_amount = (n : ℚ))
      ∧ (createPayment (21 / 2) "succeeded").stripe_amount = jsRound ((21 / 2) * 100)) :=
  ⟨half21_not_int, c6_major_units_persisted (21 / 2) "succeeded" half21_not_int⟩

/-- C7: the webhook handler answers only 200, 400 or 500; it answers 400
exactly when a webhook secret is configured, a signature header is present
and verification fails; and it answers 200 exactly when some decoded event
was processed (including events the processing ignores). -/
theorem c7_response_codes (config : Option StripeConfig) (sig : Option String)
    (vf parsed : Option StripeEvent) (now : Nat) (st : Store) :
    ((handleWebhook config sig vf parsed now st).2 = 200
      ∨ (handleWebhook config sig vf parsed now st).2 = 400
      ∨ (handleWebhook config sig vf parsed now st).2 = 500)
    ∧ ((handleWebhook config sig vf parsed now st).2 = 400
        ↔ ∃ cfg : StripeConfig, config = some cfg
            ∧ cfg.api_key_secret.isSome = true ∧ cfg.webhook_secret.isSome = true
            ∧ sig.isSome = true ∧ vf = none)
    ∧ ((handleWebhook config sig vf parsed now st).2 = 200
        ↔ ∃ ev : StripeEvent,
            handleWebhook config sig vf parsed now st = (processEvent now ev st, 200)) := by
  obtain _ | ⟨api?, sec?⟩ := config
  · simp [handleWebhook]
  · obtain _ | api := api?
    · simp [handleWebhook]
    · obtain _ | sec := sec?
      · obtain _ | ev := parsed
        · cases sig <;> simp [handleWebhook, Prod.ext_iff]
        · cases sig <;>
            · refine ⟨by simp [handleWebhook], by simp [handleWebhook], ?_⟩
              simp only [handleWebhook]
              exact ⟨by intro _; exact ⟨ev, rfl⟩, by intro _; trivial⟩
      · obtain _ | s := sig
        · obtain _ | ev := parsed
          · simp [handleWebhook, Prod.ext_iff]
          · refine ⟨by simp [handleWebhook], by simp [handleWebhook], ?_⟩
            simp only [handleWebhook]
            exact ⟨by intro _; exact ⟨ev, rfl⟩, by intro _; trivial⟩
        · obtain _ | ev := vf
          · simp [handleWebhook, Prod.ext_iff]
          · refine ⟨by simp [handleWebhook], by simp [handleWebhook], ?_⟩
            simp only [handleWebhook]
            exact ⟨by intro _; exact ⟨ev, rfl⟩, by intro _; trivial⟩

/-- C8: an event whose payment intent id matches no transaction leaves the
`transactions`, `fees` and `wallets` tables unchanged, and the handler
acknowledges it to the provider with HTTP 200. -/
theorem c8_unknown_transaction_ack (now : Nat) (ev : StripeEvent) (st : Store)
    (api sec sg : String) (parsed : Option StripeEvent)
    (h : ∀ t ∈ st.transactions, t.gateway_transaction_id ≠ ev.objectId) :
    (processEvent now ev st).transactions = st.transactions
    ∧ (processEvent now ev st).fees = st.fees
    ∧ (processEvent now ev st).wallets = st.wallets
    ∧ handleWebhook (some ⟨some api, some sec⟩) (some sg) (some ev) parsed now st
      = (processEvent now ev st, 200) := by
  refine ⟨?_, applyEvent_fees now ev st, applyEvent_wallets now ev st, rfl⟩
  show (applyEvent now ev st).transactions = st.transactions
  unfold applyEvent
  split_ifs <;>
    first
      | rfl
      | exact updateByGatewayId_no_match _ _ _ h

/-- C8, witness: a `payment_intent.succeeded` event for the unknown
payment intent id `pi_missing` against a store holding only a transaction
for `pi_other`. -/
theorem c8_unknown_transaction_witness :
    ((processEvent 0 ⟨"evt_8", "payment_intent.succeeded", "pi_missing"⟩
        (mkStore [mkTx "pi_other" "pending" 100])).transactions
      = (mkStore [mkTx "pi_other" "pending" 100]).transactions)
    ∧ ((processEvent 0 ⟨"evt_8", "payment_intent.succeeded", "pi_missing"⟩
        (mkStore [mkTx "pi_other" "pending" 100])).fees
      = (mkStore [mkTx "pi_other" "pending" 100]).fees)
    ∧ ((processEvent 0 ⟨"evt_8", "payment_intent.succeeded", "pi_missing"⟩
        (mkStore [mkTx "pi_other" "pending" 100])).wallets
      = (mkStore [mkTx "pi_other" "pending" 100]).wallets)
    ∧ handleWebhook (some ⟨some "sk_live", some "whsec"⟩) (some "sig")
        (some ⟨"evt_8", "payment_intent.succeeded", "pi_missing"⟩) none 0
        (mkStore [mkTx "pi_other" "pending" 100])
      = (processEvent 0 ⟨"evt_8", "payment_intent.succeeded", "pi_missing"⟩
          (mkStore [mkTx "pi_other" "pending" 100]), 200) :=
  c8_unknown_transaction_ack 0 ⟨"evt_8", "payment_intent.succeeded", "pi_missing"⟩
    (mkStore [mkTx "pi_other" "pending" 100]) "sk_live" "whsec" "sig" none (by decide)

/-- C10 (spec-modelled dispatcher): with at least 4 attempts allowed, an
active endpoint answering 500 on the first three attempts and 200 on the
fourth ends `delivered = true` with exactly the four attempts recorded in
backoff order; and if the endpoint is deactivated after attempt 2, only
attempts 1 and 2 are recorded and attempt 3 is never issued. -/
theorem c10_outbound_retry_delivery (k : Nat) :
    (dispatch (k + 4) (fun _ => true) scenarioRespond).delivered = true
    ∧ (dispatch (k + 4) (fun _ => true) scenarioRespond).attempts
        = [⟨1, 500⟩, ⟨2, 500⟩, ⟨3, 500⟩, ⟨4, 200⟩]
    ∧ (dispatch (k + 4) (fun n => decide (n ≤ 2)) scenarioRespond).attempts
        = [⟨1, 500⟩, ⟨2, 500⟩]
    ∧ ∀ a ∈ (dispatch (k + 4) (fun n => decide (n ≤ 2)) scenarioRespond).attempts,
        a.attempt ≠ 3 := by
  have e4 : k + 4 = (k + 3) + 1 := rfl
  have e3 : k + 3 = (k + 2) + 1 := rfl
  have e2 : k + 2 = (k + 1) + 1 := rfl
  refine ⟨?_, ?_, ?_, ?_⟩ <;>
    simp [dispatch, e4, e3, e2, dispatchFrom, scenarioRespond]

end Gateway
